import Mathlib

/-!
Verification of the PwrSysPro-SSC fault-current / arc-flash engine.

The definitions below are shallow embeddings, over the real numbers, of the
JavaScript source functions of the repository (file and function names are
given in each doc comment).  JavaScript floating-point arithmetic is modelled
by exact real arithmetic; a JavaScript division whose denominator is zero
produces a non-finite value (`Infinity`/`NaN`), which is modelled by `Option`
with `none` standing for the non-finite outcome.

The file is organised as: all definitions first, then the theorems.
-/

namespace PwrSysPro

/-- An impedance pair (R, X) in ohms, as the plain `{r, x}` records used
throughout the source. -/
structure Impedance where
  r : ℝ
  x : ℝ

/-- The record returned by `referImpedanceBetweenLevels`
(`src/js/transformer_model.js`): scaled r and x, their magnitude, and the
echoed voltages and ratio. -/
structure ReferredImpedance where
  r : ℝ
  x : ℝ
  magnitude : ℝ
  fromVoltage : ℝ
  toVoltage : ℝ
  ratio : ℝ

/-- `referImpedanceBetweenLevels(impedance, fromVoltage, toVoltage)` from
`src/js/transformer_model.js` (lines 133-145): scales r and x by
`(toVoltage/fromVoltage)^2`. -/
noncomputable def referImpedanceBetweenLevels (impedance : Impedance) (fromVoltage toVoltage : ℝ) :
    ReferredImpedance :=
  let ratio := toVoltage / fromVoltage
  let factor := ratio * ratio
  { r := impedance.r * factor
    x := impedance.x * factor
    magnitude := Real.sqrt ((impedance.r * factor) ^ 2 + (impedance.x * factor) ^ 2)
    fromVoltage := fromVoltage
    toVoltage := toVoltage
    ratio := ratio }

/-- Forgetful view of a referred impedance as a plain (R, X) pair, used when
the result of one referral is fed back into another. -/
def ReferredImpedance.toImpedance (z : ReferredImpedance) : Impedance :=
  { r := z.r, x := z.x }

/-- `calculateFirstCycleAsymmetricalMultiplier(xrRatio)` from
`src/js/standard_specific_calcs.js` (lines 188-199):
`sqrt(1 + 2*e^(-4*pi/xr))` clamped to `[1.0, 1.732]`.  At `xr = 0` the
JavaScript exponent `-4*Math.PI/0` is `-Infinity` and `Math.pow(Math.E, -∞)`
is `0`, so the unclamped value is `sqrt 1 = 1`; that case is made explicit
here because real division by zero would not reproduce it. -/
noncomputable def calculateFirstCycleAsymmetricalMultiplier (xrRatio : ℝ) : ℝ :=
  let multiplier :=
    if xrRatio = 0 then Real.sqrt 1
    else Real.sqrt (1 + 2 * Real.exp (-4 * Real.pi / xrRatio))
  max 1.0 (min 1.732 multiplier)

/-- Utility source impedance from short-circuit power,
`TopologyManager.toBusSystem` in `src/unnamed/part_003` (topology_manager.js):
`zSource = (voltage * voltage) / (comp.shortCircuitMVA * 1e6)`. -/
noncomputable def utilityImpedanceFromSCMVA (voltage shortCircuitMVA : ℝ) : ℝ :=
  (voltage * voltage) / (shortCircuitMVA * 1e6)

/-- Utility source impedance from fault current in kA,
`TopologyManager.toBusSystem` in `src/unnamed/part_003` (topology_manager.js):
`zSource = voltage / (Math.sqrt(3) * iscKA * 1000)` — the kA value is
converted to amperes by the explicit factor 1000. -/
noncomputable def utilityImpedanceFromFaultKA (voltage iscKA : ℝ) : ℝ :=
  voltage / (Real.sqrt 3 * iscKA * 1000)

/-- Split of a scalar impedance into (R, X) by the X/R ratio,
`TopologyManager.toBusSystem` in `src/unnamed/part_003`:
`rSource = zSource / Math.sqrt(1 + xr * xr); xSource = rSource * xr`. -/
noncomputable def splitImpedanceByXR (zSource xr : ℝ) : Impedance :=
  let rSource := zSource / Real.sqrt (1 + xr * xr)
  { r := rSource, x := rSource * xr }

/-- Impedance magnitude as computed by `Bus.calculateTotalImpedance` in
`src/unnamed/part_001` (bus_model.js):
`Math.sqrt(totalR * totalR + totalX * totalX)`. -/
noncomputable def impedanceMagnitude (imp : Impedance) : ℝ :=
  Real.sqrt (imp.r * imp.r + imp.x * imp.x)

/-- Three-phase symmetrical fault current from
`CalculationOrchestrator.calculateShortCircuit` in
`src/js/calculation_orchestrator.js` (lines 1215-1245):
`const z = th.z || 0.001; const i3phase = voltage / (Math.sqrt(3) * z)`.
The JavaScript `||` falls back to 0.001 exactly when `th.z` is 0. -/
noncomputable def threePhaseCurrent (voltage z : ℝ) : ℝ :=
  voltage / (Real.sqrt 3 * (if z = 0 then 0.001 else z))

/-- `Bus.calculateFaultCurrent` from `src/unnamed/part_001` (bus_model.js,
lines 64-73): `voltage / (Math.sqrt(3) * impedance.magnitude)` with no guard
on the denominator; a zero magnitude makes the JavaScript division return
`Infinity` (modelled as `none`). -/
noncomputable def busCalculateFaultCurrent (voltage : ℝ) (imp : Impedance) : Option ℝ :=
  if Real.sqrt 3 * impedanceMagnitude imp = 0 then none
  else some (voltage / (Real.sqrt 3 * impedanceMagnitude imp))

/-- Per-bus X/R ratio from `CalculationOrchestrator.calculateTheveninEquivalents`
in `src/js/calculation_orchestrator.js` (lines 1192-1212):
`const xr = impedance.x / (impedance.r || 0.001)` — the JavaScript `||`
substitutes 0.001 exactly when `r` is 0, and no warning is recorded. -/
noncomputable def theveninXRRatio (r x : ℝ) : ℝ :=
  x / (if r = 0 then 0.001 else r)

/-- Per-motor timeline of fault-current contributions in amperes, as built by
`CalculationOrchestrator.calculateMotorContribution`
(`src/js/calculation_orchestrator.js`): `firstCycle = lra`,
`interrupting = lra * 0.75`, `sustained = fla * 4`. -/
structure MotorContribution where
  firstCycle : ℝ
  interrupting : ℝ
  sustained : ℝ

/-- Per-bus accumulation of motor first-cycle contributions from
`CalculationOrchestrator.integrateMotorContribution`
(`src/js/calculation_orchestrator.js`, lines 1385-1455):
`motorsByBus[busId].firstCycle += motor.contribution.firstCycle` over the
motors grouped at one bus, starting from 0. -/
noncomputable def busMotorFirstCycleSum (motors : List MotorContribution) : ℝ :=
  motors.foldl (fun s m => s + m.firstCycle) 0

/-- The `threePhaseWithMotors` field set by
`CalculationOrchestrator.integrateMotorContribution`: when motors are
attached, `faultCurrentsKA.threePhase + busMotors.firstCycle / 1000`
(contributions are in amperes, the bus current in kA); with no motors the
bolted value is copied unchanged. -/
noncomputable def threePhaseWithMotors (threePhaseKA : ℝ) (motors : List MotorContribution) : ℝ :=
  match motors with
  | [] => threePhaseKA
  | _ => threePhaseKA + busMotorFirstCycleSum motors / 1000

/-- NFPA 70E PPE category from `getPPECategory(incidentEnergyCalCm2)` in
`src/js/ppe_selection.js` (lines 106-122): the first category 0-4 whose
`[incidentEnergyMin, incidentEnergyMax)` band contains the energy, then the
`>= 40` overflow check, then the default 0.  The band bounds are the table
`NFPA_70E_2024_PPE_CATEGORIES`: [0,1.2), [1.2,4), [4,8), [8,25), [25,40).
Incident energies are compared against exact rational breakpoints, so the
function is stated over `ℚ`. -/
def getPPECategory (incidentEnergyCalCm2 : ℚ) : ℕ :=
  if 0 ≤ incidentEnergyCalCm2 ∧ incidentEnergyCalCm2 < 1.2 then 0
  else if 1.2 ≤ incidentEnergyCalCm2 ∧ incidentEnergyCalCm2 < 4 then 1
  else if 4 ≤ incidentEnergyCalCm2 ∧ incidentEnergyCalCm2 < 8 then 2
  else if 8 ≤ incidentEnergyCalCm2 ∧ incidentEnergyCalCm2 < 25 then 3
  else if 25 ≤ incidentEnergyCalCm2 ∧ incidentEnergyCalCm2 < 40 then 4
  else if 40 ≤ incidentEnergyCalCm2 then 4
  else 0

/-- The part of the record returned by `getDetailedPPERecommendations` in
`src/js/ppe_selection.js` (lines 138-223) that the claims are about: the
category and whether the high-incident-energy overflow warning was set. -/
structure PPERecommendations where
  category : ℕ
  overflowWarning : Bool

/-- `getDetailedPPERecommendations(incidentEnergyCalCm2)` from
`src/js/ppe_selection.js`: category via `getPPECategory`, and
`recommendations.warning` is assigned exactly when
`incidentEnergyCalCm2 > 40`. -/
def getDetailedPPERecommendations (incidentEnergyCalCm2 : ℚ) : PPERecommendations :=
  { category := getPPECategory incidentEnergyCalCm2
    overflowWarning := decide (40 < incidentEnergyCalCm2) }

/-- Electrode/enclosure configurations of the `IEEE_1584_2018` table in
`src/js/arc_flash_calculation.js`. -/
inductive EnclosureType where
  | VCB
  | VCBB
  | HCB
  | VOA
  | HOA
deriving DecidableEq

/-- The `k1` coefficient of `IEEE_1584_2018.electrodeConfig` in
`src/js/arc_flash_calculation.js`; every configuration has `k2 = 0`. -/
def electrodeConfigK1 : EnclosureType → ℝ
  | .VCB => -0.792
  | .VCBB => -0.555
  | .HCB => -0.723
  | .VOA => -0.113
  | .HOA => 0.022

/-- Base-10 logarithm (`Math.log10`). -/
noncomputable def log10 (y : ℝ) : ℝ := Real.logb 10 y

/-- `calculateArcingCurrent(voltage, boltedFaultCurrent, gap)` from
`src/js/arc_flash_calculation.js` (lines 34-61): `10^logIarc` with the IEEE
1584-2018 log-linear regression; the constant `k` is -0.153 below 1 kV and
-0.097 at or above. -/
noncomputable def calculateArcingCurrent (voltage boltedFaultCurrent gap : ℝ) : ℝ :=
  let voltageKV := voltage / 1000
  let k : ℝ := if voltage < 1000 then -0.153 else -0.097
  let logIarc := k + 0.662 * log10 boltedFaultCurrent + 0.0966 * voltageKV +
    0.000526 * gap + 0.5588 * voltageKV * log10 boltedFaultCurrent -
    0.00304 * gap * log10 boltedFaultCurrent
  (10 : ℝ) ^ logIarc

/-- The distance exponent `x = 0.973 + 0.0919 * G` computed inside
`calculateIncidentEnergy` in `src/js/arc_flash_calculation.js` (the source
computes the same expression in both voltage branches). -/
def arcFlashDistanceExponent (gap : ℝ) : ℝ := 0.973 + 0.0919 * gap

/-- `calculateIncidentEnergy(params)` from `src/js/arc_flash_calculation.js`
(lines 65-118): `E = 4.184 * Cf * 10^K * (t / 0.2) * 610^x / D^x` in J/cm²,
with `K = k1 + k2 + 1.081 * log10(Iarc) + 0.0011 * G`, `Cf = 1.0` and the
distance exponent `x = 0.973 + 0.0919 * G`. -/
noncomputable def calculateIncidentEnergy (enclosureType : EnclosureType)
    (voltage boltedFaultCurrent workingDistance arcDuration equipmentGap : ℝ) : ℝ :=
  let Iarc := calculateArcingCurrent voltage boltedFaultCurrent equipmentGap
  let K := electrodeConfigK1 enclosureType + 0 + 1.081 * log10 Iarc +
    0.0011 * equipmentGap
  let x := arcFlashDistanceExponent equipmentGap
  4.184 * 1.0 * (10 : ℝ) ^ K * (arcDuration / 0.2) * (610 : ℝ) ^ x /
    workingDistance ^ x

/-- `calculateArcFlashBoundary(incidentEnergy, workingDistance)` from
`src/js/arc_flash_calculation.js` (lines 121-141): threshold 5 J/cm²
(1.2 cal/cm²); when the energy at the working distance is already at or
below the threshold the working distance itself is returned, otherwise
`AFB = D * (E/5)^(1/x)` with the hard-coded approximate factor `x = 2.0`. -/
noncomputable def calculateArcFlashBoundary (incidentEnergy workingDistance : ℝ) : ℝ :=
  if incidentEnergy ≤ 5 then workingDistance
  else workingDistance * (incidentEnergy / 5) ^ ((1 : ℝ) / 2)

/-- Reasons a bus's arc-flash record is not evaluated, standing for the
message strings pushed onto `missingFields` by
`CalculationOrchestrator.calculateArcFlash`
(`src/js/calculation_orchestrator.js`, lines 1522-1567). -/
inductive ArcFlashMissingField where
  | voltageOutOfRange
  | invalidBoltedCurrent
  | noWorkingDistance
  | noArcDuration
deriving DecidableEq

/-- The per-bus arc-flash record fields the claims are about: the
`evaluated` flag, the `missingFields` list, and the incident energy, which
is present (`some`) only on the evaluated path. -/
structure ArcFlashRecord where
  evaluated : Bool
  missingFields : List ArcFlashMissingField
  incidentEnergy : Option ℝ

/-- The `missingFields` list assembled by
`CalculationOrchestrator.calculateArcFlash`: voltage must lie in
[208, 15000] V, the bolted current, working distance and arc duration must
be positive (the JavaScript falsy checks `!v || v <= 0` coincide with
`v ≤ 0` on real inputs). -/
noncomputable def arcFlashMissingFields (voltage boltedFaultKA workingDistance arcDuration : ℝ) :
    List ArcFlashMissingField :=
  (if ¬(208 ≤ voltage ∧ voltage ≤ 15000) then [ArcFlashMissingField.voltageOutOfRange]
    else []) ++
  (if boltedFaultKA ≤ 0 then [ArcFlashMissingField.invalidBoltedCurrent] else []) ++
  (if workingDistance ≤ 0 then [ArcFlashMissingField.noWorkingDistance] else []) ++
  (if arcDuration ≤ 0 then [ArcFlashMissingField.noArcDuration] else [])

/-- The per-bus arc-flash pipeline of
`CalculationOrchestrator.calculateArcFlash`: if any precondition fails the
record is returned with `evaluated: false`, the non-empty `missingFields`,
and no incident energy; otherwise the IEEE 1584-2018 module is invoked with
`equipmentGap = voltage < 1000 ? 32 : 104`. -/
noncomputable def calculateArcFlashForBus (enclosureType : EnclosureType)
    (voltage boltedFaultKA workingDistance arcDuration : ℝ) : ArcFlashRecord :=
  let missing := arcFlashMissingFields voltage boltedFaultKA workingDistance arcDuration
  if missing = [] then
    { evaluated := true
      missingFields := []
      incidentEnergy := some (calculateIncidentEnergy enclosureType voltage
        boltedFaultKA workingDistance arcDuration
        (if voltage < 1000 then 32 else 104)) }
  else
    { evaluated := false, missingFields := missing, incidentEnergy := none }

/-- Explicit-or-inferred power unit of a transformer record
(`powerUnit` field, `'kVA' | 'MVA'`). -/
inductive PowerUnit where
  | kVA
  | MVA
deriving DecidableEq

/-- The transformer fields read by `TopologyManager.getTransformerPowerMVA`
(`src/unnamed/part_003`, topology_manager.js, lines 189-215): the rated
power value, the optional explicit unit tag, and the secondary voltage in
kV (optional; the JavaScript `transformer.secondaryV || 0.48` also maps an
explicit 0 to the 0.48 default). -/
structure TransformerPowerConfig where
  power : ℝ
  powerUnit : Option PowerUnit
  secondaryV : Option ℝ

/-- Result of resolving a transformer's rated power: the value in MVA, the
unit inferred by the migration heuristic (`none` when the tag was explicit),
whether the one-time `console.warn` fires for a fresh record, and the
entries appended to the run's assumption ledger.  The source function logs
only to the console and never calls the orchestrator's `addAssumption`, so
`ledgerAppends` is always empty. -/
structure PowerResolution where
  powerMVA : ℝ
  inferredUnit : Option PowerUnit
  consoleWarning : Bool
  ledgerAppends : List String

/-- `TopologyManager.getTransformerPowerMVA(transformer)` from
`src/unnamed/part_003` (lines 189-215).  An explicit `kVA` tag divides by
1000, an explicit `MVA` tag is returned as-is; an untagged record infers the
unit from the secondary voltage (`<= 1000 V` → kVA, otherwise MVA), warns on
the console once (modelled for a record whose `_powerUnitWarningLogged` flag
is not yet set), and substitutes 1 for a zero/absent power value
(`transformer.power || 1`).  No assumption-ledger entry is produced. -/
noncomputable def getTransformerPowerMVA (t : TransformerPowerConfig) : PowerResolution :=
  match t.powerUnit with
  | some PowerUnit.kVA => ⟨t.power / 1000, none, false, []⟩
  | some PowerUnit.MVA => ⟨t.power, none, false, []⟩
  | none =>
    let sv : ℝ := match t.secondaryV with
      | none => 0.48
      | some s => if s = 0 then 0.48 else s
    let secondaryV := sv * 1000
    let unit : PowerUnit := if secondaryV ≤ 1000 then PowerUnit.kVA else PowerUnit.MVA
    let p := if t.power = 0 then 1 else t.power
    ⟨if unit = PowerUnit.kVA then p / 1000 else p, some unit, true, []⟩

end PwrSysPro

namespace PwrSysPro

/-- Folding motor first-cycle contributions is plain summation. -/
theorem busMotorFirstCycleSum_eq_sum (motors : List MotorContribution) :
    busMotorFirstCycleSum motors = (motors.map fun m => m.firstCycle).sum := by
  suffices h : ∀ init : ℝ, motors.foldl (fun s m => s + m.firstCycle) init
      = init + (motors.map fun m => m.firstCycle).sum by
    simpa [busMotorFirstCycleSum] using h 0
  induction motors with
  | nil => intro init; simp
  | cons m ms ih =>
      intro init
      simp only [List.foldl_cons, List.map_cons, List.sum_cons, ih]
      ring

/-- C1: referring an impedance from V1 to V2 and back from V2 to V1 returns
the original R and X (exactly, hence within any floating tolerance), and
referring from a voltage to itself is the identity on R and X. -/
theorem refer_roundtrip_and_identity (imp : Impedance) (V1 V2 : ℝ)
    (h1 : 0 < V1) (h2 : 0 < V2) :
    ((referImpedanceBetweenLevels
        (referImpedanceBetweenLevels imp V1 V2).toImpedance V2 V1).r = imp.r ∧
     (referImpedanceBetweenLevels
        (referImpedanceBetweenLevels imp V1 V2).toImpedance V2 V1).x = imp.x) ∧
    ((referImpedanceBetweenLevels imp V1 V1).r = imp.r ∧
     (referImpedanceBetweenLevels imp V1 V1).x = imp.x) := by
  have h1' : V1 ≠ 0 := ne_of_gt h1
  have h2' : V2 ≠ 0 := ne_of_gt h2
  refine ⟨⟨?_, ?_⟩, ?_, ?_⟩ <;>
    simp only [referImpedanceBetweenLevels, ReferredImpedance.toImpedance] <;>
    field_simp

/-- Witness for C1 at the concrete impedance (3, 4) Ω and voltages
480 V and 13800 V. -/
theorem refer_roundtrip_and_identity_witness :
    ((referImpedanceBetweenLevels
        (referImpedanceBetweenLevels ⟨3, 4⟩ 480 13800).toImpedance 13800 480).r = (3 : ℝ) ∧
     (referImpedanceBetweenLevels
        (referImpedanceBetweenLevels ⟨3, 4⟩ 480 13800).toImpedance 13800 480).x = (4 : ℝ)) ∧
    ((referImpedanceBetweenLevels ⟨3, 4⟩ 480 480).r = (3 : ℝ) ∧
     (referImpedanceBetweenLevels ⟨3, 4⟩ 480 480).x = (4 : ℝ)) :=
  refer_roundtrip_and_identity ⟨3, 4⟩ 480 13800 (by norm_num) (by norm_num)

/-- C10: referral scales R and X by the common factor (V_to/V_from)^2, so the
X/R ratio is preserved and the magnitude scales by exactly that factor. -/
theorem refer_scales_r_x_mag_preserves_xr (imp : Impedance) (Vfrom Vto : ℝ)
    (hr : 0 < imp.r) (h1 : 0 < Vfrom) (h2 : 0 < Vto) :
    (referImpedanceBetweenLevels imp Vfrom Vto).r
        = imp.r * ((Vto / Vfrom) * (Vto / Vfrom)) ∧
    (referImpedanceBetweenLevels imp Vfrom Vto).x
        = imp.x * ((Vto / Vfrom) * (Vto / Vfrom)) ∧
    (referImpedanceBetweenLevels imp Vfrom Vto).x
        / (referImpedanceBetweenLevels imp Vfrom Vto).r = imp.x / imp.r ∧
    (referImpedanceBetweenLevels imp Vfrom Vto).magnitude
        = Real.sqrt (imp.r ^ 2 + imp.x ^ 2) * ((Vto / Vfrom) * (Vto / Vfrom)) := by
  have hf : 0 < (Vto / Vfrom) * (Vto / Vfrom) := by positivity
  refine ⟨rfl, rfl, ?_, ?_⟩
  · simp only [referImpedanceBetweenLevels]
    rw [mul_div_mul_right _ _ (ne_of_gt hf)]
  · simp only [referImpedanceBetweenLevels]
    have hsq : (imp.r * ((Vto / Vfrom) * (Vto / Vfrom))) ^ 2
        + (imp.x * ((Vto / Vfrom) * (Vto / Vfrom))) ^ 2
        = ((Vto / Vfrom) * (Vto / Vfrom)) ^ 2 * (imp.r ^ 2 + imp.x ^ 2) := by ring
    rw [hsq, Real.sqrt_mul (sq_nonneg _), Real.sqrt_sq hf.le, mul_comm]

/-- Witness for C10 at impedance (3, 4) Ω, 480 V → 960 V: factor 4. -/
theorem refer_scales_r_x_mag_preserves_xr_witness :
    (referImpedanceBetweenLevels ⟨3, 4⟩ 480 960).r
        = (3 : ℝ) * ((960 / 480) * (960 / 480)) ∧
    (referImpedanceBetweenLevels ⟨3, 4⟩ 480 960).x
        = (4 : ℝ) * ((960 / 480) * (960 / 480)) ∧
    (referImpedanceBetweenLevels ⟨3, 4⟩ 480 960).x
        / (referImpedanceBetweenLevels ⟨3, 4⟩ 480 960).r = (4 : ℝ) / 3 ∧
    (referImpedanceBetweenLevels ⟨3, 4⟩ 480 960).magnitude
        = Real.sqrt ((3 : ℝ) ^ 2 + (4 : ℝ) ^ 2) * ((960 / 480) * (960 / 480)) :=
  refer_scales_r_x_mag_preserves_xr ⟨3, 4⟩ 480 960 (by norm_num) (by norm_num) (by norm_num)

/-- Splitting a nonnegative scalar impedance by any X/R ratio preserves its
magnitude: `sqrt(r^2 + (r*xr)^2) = z` when `r = z / sqrt(1 + xr^2)`. -/
theorem impedanceMagnitude_splitImpedanceByXR (z xr : ℝ) (hz : 0 ≤ z) :
    impedanceMagnitude (splitImpedanceByXR z xr) = z := by
  have hpos : (0:ℝ) < 1 + xr * xr := by nlinarith [sq_nonneg xr]
  have hs : Real.sqrt (1 + xr * xr) * Real.sqrt (1 + xr * xr) = 1 + xr * xr :=
    Real.mul_self_sqrt hpos.le
  have hsne : Real.sqrt (1 + xr * xr) ≠ 0 := by
    have := Real.sqrt_pos.mpr hpos
    exact ne_of_gt this
  simp only [impedanceMagnitude, splitImpedanceByXR]
  have key : z / Real.sqrt (1 + xr * xr) * (z / Real.sqrt (1 + xr * xr))
      + z / Real.sqrt (1 + xr * xr) * xr * (z / Real.sqrt (1 + xr * xr) * xr)
      = z * z := by
    field_simp
    nlinarith [hs]
  rw [key, Real.sqrt_mul_self hz]

/-- C2: a utility source of nominal 100 MVA short-circuit power at 13.2 kV
gives Z = 1.7424 Ω exactly (hence within 0.1%), the resulting symmetrical
fault current is within 0.1% of 4.374 kA, and the fault-current-specified
impedance path converts kA to amperes by the factor 1000. -/
theorem utility_source_impedance_and_current :
    utilityImpedanceFromSCMVA 13200 100 = 1.7424 ∧
    |threePhaseCurrent 13200
        (impedanceMagnitude
          (splitImpedanceByXR (utilityImpedanceFromSCMVA 13200 100) 10)) / 1000
      - 4.374| ≤ 0.001 * 4.374 ∧
    ∀ v i : ℝ, utilityImpedanceFromFaultKA v i = v / (Real.sqrt 3 * (i * 1000)) := by
  have hz : utilityImpedanceFromSCMVA 13200 100 = 1.7424 := by
    unfold utilityImpedanceFromSCMVA; norm_num
  have hmag : impedanceMagnitude (splitImpedanceByXR 1.7424 10) = 1.7424 :=
    impedanceMagnitude_splitImpedanceByXR 1.7424 10 (by norm_num)
  have hsq : Real.sqrt 3 ^ 2 = 3 := Real.sq_sqrt (by norm_num)
  have hnn : (0:ℝ) ≤ Real.sqrt 3 := Real.sqrt_nonneg 3
  have h3a : (1.732 : ℝ) < Real.sqrt 3 := by nlinarith
  have h3b : Real.sqrt 3 < 1.7321 := by nlinarith
  refine ⟨hz, ?_, ?_⟩
  · rw [hz, hmag]
    unfold threePhaseCurrent
    rw [if_neg (by norm_num : (1.7424 : ℝ) ≠ 0), div_div]
    have hd : (0:ℝ) < Real.sqrt 3 * 1.7424 * 1000 := by positivity
    have hI1 : (4.3736 : ℝ) ≤ 13200 / (Real.sqrt 3 * 1.7424 * 1000) := by
      rw [le_div_iff₀ hd]
      nlinarith
    have hI2 : 13200 / (Real.sqrt 3 * 1.7424 * 1000) ≤ 4.3742 := by
      rw [div_le_iff₀ hd]
      nlinarith
    rw [abs_le]
    constructor <;> linarith
  · intro v i
    unfold utilityImpedanceFromFaultKA
    rw [mul_assoc]

/-- The unclamped asymmetry multiplier is monotone for positive X/R. -/
theorem rawMultiplier_mono {a b : ℝ} (ha : 0 < a) (hab : a ≤ b) :
    Real.sqrt (1 + 2 * Real.exp (-4 * Real.pi / a))
      ≤ Real.sqrt (1 + 2 * Real.exp (-4 * Real.pi / b)) := by
  have hdiv : 4 * Real.pi / b ≤ 4 * Real.pi / a := by
    have hpi : 0 ≤ 4 * Real.pi := by positivity
    exact div_le_div_of_nonneg_left hpi ha hab
  have hexp : Real.exp (-4 * Real.pi / a) ≤ Real.exp (-4 * Real.pi / b) := by
    apply Real.exp_le_exp.mpr
    rw [neg_mul, neg_div, neg_div]
    exact neg_le_neg hdiv
  apply Real.sqrt_le_sqrt
  linarith

/-- C5: the first-cycle asymmetry multiplier is monotone (non-decreasing) in
the X/R ratio on [0, ∞) and bounded within [1.0, 1.7321]. -/
theorem asymmetrical_multiplier_mono_bounded (a b : ℝ) (ha : 0 ≤ a) (hab : a ≤ b) :
    calculateFirstCycleAsymmetricalMultiplier a
        ≤ calculateFirstCycleAsymmetricalMultiplier b ∧
    1 ≤ calculateFirstCycleAsymmetricalMultiplier a ∧
    calculateFirstCycleAsymmetricalMultiplier a ≤ 1.7321 := by
  refine ⟨?_, ?_, ?_⟩
  · rcases eq_or_lt_of_le ha with h0 | hpos
    · have hA : calculateFirstCycleAsymmetricalMultiplier a = 1 := by
        simp only [calculateFirstCycleAsymmetricalMultiplier, ← h0, if_pos rfl,
          Real.sqrt_one]
        rw [min_eq_right (by norm_num), max_eq_left (by norm_num)]
        norm_num
      rw [hA]
      exact le_trans (by norm_num) (le_max_left _ _)
    · rcases eq_or_lt_of_le hab with hE | hlt
      · rw [hE]
      · have hb : 0 < b := lt_trans hpos hlt
        simp only [calculateFirstCycleAsymmetricalMultiplier,
          if_neg (ne_of_gt hpos), if_neg (ne_of_gt hb)]
        exact max_le_max le_rfl (min_le_min le_rfl (rawMultiplier_mono hpos hab))
  · exact le_trans (by norm_num) (le_max_left _ _)
  · apply max_le (by norm_num)
    exact le_trans (min_le_left _ _) (by norm_num)

/-- Witness for C5 at X/R values 1 and 2. -/
theorem asymmetrical_multiplier_mono_bounded_witness :
    calculateFirstCycleAsymmetricalMultiplier 1
        ≤ calculateFirstCycleAsymmetricalMultiplier 2 ∧
    1 ≤ calculateFirstCycleAsymmetricalMultiplier 1 ∧
    calculateFirstCycleAsymmetricalMultiplier 1 ≤ 1.7321 :=
  asymmetrical_multiplier_mono_bounded 1 2 (by norm_num) (by norm_num)

/-- C3: the with-motors three-phase current is the bolted value plus the
arithmetic sum of the attached motors' first-cycle contributions (converted
from A to kA), never an impedance combination; two motors at 15 kA and 5 kA
first-cycle add exactly 20 kA above the bolted value. -/
theorem motor_contribution_superposition (threePhaseKA : ℝ)
    (motors : List MotorContribution) :
    threePhaseWithMotors threePhaseKA motors
        = threePhaseKA + (motors.map fun m => m.firstCycle).sum / 1000 ∧
    threePhaseWithMotors threePhaseKA
        [⟨15000, 11250, 0⟩, ⟨5000, 3750, 0⟩] = threePhaseKA + 20 := by
  constructor
  · cases motors with
    | nil => simp [threePhaseWithMotors]
    | cons m ms =>
        simp only [threePhaseWithMotors, busMotorFirstCycleSum_eq_sum]
  · simp only [threePhaseWithMotors, busMotorFirstCycleSum]
    norm_num

/-- C6, part 1: the PPE category follows the fixed incident-energy
breakpoints 0-1.2, 1.2-4, 4-8, 8-25, 25-40 cal/cm², and any energy above
40 cal/cm² yields category 4 together with the overflow warning (never a
silent clamp). -/
theorem ppe_category_breakpoints_and_overflow (e : ℚ) :
    (0 ≤ e → e < 1.2 → getPPECategory e = 0) ∧
    (1.2 ≤ e → e < 4 → getPPECategory e = 1) ∧
    (4 ≤ e → e < 8 → getPPECategory e = 2) ∧
    (8 ≤ e → e < 25 → getPPECategory e = 3) ∧
    (25 ≤ e → e < 40 → getPPECategory e = 4) ∧
    (40 < e → (getDetailedPPERecommendations e).category = 4 ∧
        (getDetailedPPERecommendations e).overflowWarning = true) := by
  refine ⟨?_, ?_, ?_, ?_, ?_, ?_⟩
  · intro h1 h2
    unfold getPPECategory
    rw [if_pos ⟨h1, h2⟩]
  · intro h1 h2
    have n0 : ¬(0 ≤ e ∧ e < 1.2) := by rintro ⟨_, h⟩; linarith
    unfold getPPECategory
    rw [if_neg n0, if_pos ⟨h1, h2⟩]
  · intro h1 h2
    have n0 : ¬(0 ≤ e ∧ e < 1.2) := by rintro ⟨_, h⟩; linarith
    have n1 : ¬((1.2:ℚ) ≤ e ∧ e < 4) := by rintro ⟨_, h⟩; linarith
    unfold getPPECategory
    rw [if_neg n0, if_neg n1, if_pos ⟨h1, h2⟩]
  · intro h1 h2
    have n0 : ¬(0 ≤ e ∧ e < 1.2) := by rintro ⟨_, h⟩; linarith
    have n1 : ¬((1.2:ℚ) ≤ e ∧ e < 4) := by rintro ⟨_, h⟩; linarith
    have n2 : ¬((4:ℚ) ≤ e ∧ e < 8) := by rintro ⟨_, h⟩; linarith
    unfold getPPECategory
    rw [if_neg n0, if_neg n1, if_neg n2, if_pos ⟨h1, h2⟩]
  · intro h1 h2
    have n0 : ¬(0 ≤ e ∧ e < 1.2) := by rintro ⟨_, h⟩; linarith
    have n1 : ¬((1.2:ℚ) ≤ e ∧ e < 4) := by rintro ⟨_, h⟩; linarith
    have n2 : ¬((4:ℚ) ≤ e ∧ e < 8) := by rintro ⟨_, h⟩; linarith
    have n3 : ¬((8:ℚ) ≤ e ∧ e < 25) := by rintro ⟨_, h⟩; linarith
    unfold getPPECategory
    rw [if_neg n0, if_neg n1, if_neg n2, if_neg n3, if_pos ⟨h1, h2⟩]
  · intro h
    have n0 : ¬(0 ≤ e ∧ e < 1.2) := by rintro ⟨_, hl⟩; linarith
    have n1 : ¬((1.2:ℚ) ≤ e ∧ e < 4) := by rintro ⟨_, hl⟩; linarith
    have n2 : ¬((4:ℚ) ≤ e ∧ e < 8) := by rintro ⟨_, hl⟩; linarith
    have n3 : ¬((8:ℚ) ≤ e ∧ e < 25) := by rintro ⟨_, hl⟩; linarith
    have n4 : ¬((25:ℚ) ≤ e ∧ e < 40) := by rintro ⟨_, hl⟩; linarith
    constructor
    · show getPPECategory e = 4
      unfold getPPECategory
      rw [if_neg n0, if_neg n1, if_neg n2, if_neg n3, if_neg n4,
        if_pos (by linarith : (40:ℚ) ≤ e)]
    · show decide (40 < e) = true
      exact decide_eq_true h

/-- Witness for C6 at 50 cal/cm²: category 4 with the overflow warning. -/
theorem ppe_category_breakpoints_and_overflow_witness :
    (getDetailedPPERecommendations 50).category = 4 ∧
    (getDetailedPPERecommendations 50).overflowWarning = true :=
  (ppe_category_breakpoints_and_overflow 50).2.2.2.2.2 (by norm_num)

/-- The total impedance magnitude of a bus with zero accumulated impedance
is zero. -/
theorem impedanceMagnitude_zero : impedanceMagnitude ⟨0, 0⟩ = 0 := by
  simp [impedanceMagnitude]

/-- C8 counterexample: not every division in the engine is guarded.
`Bus.calculateFaultCurrent` divides the voltage by `sqrt(3) * |Z|` with no
fallback, so a 480 V bus whose accumulated impedance is zero produces a
non-finite current (`isSome = false`), not a bounded fallback value. -/
theorem division_guard_claim_false :
    (busCalculateFaultCurrent 480 ⟨0, 0⟩).isSome = false := by
  rw [busCalculateFaultCurrent, impedanceMagnitude_zero]
  simp

/-- C8 amended: only the Thevenin X/R division is guarded, and only against
an exactly-zero R (substituting 0.001, with no warning recorded);
`Bus.calculateFaultCurrent` is unguarded and yields a non-finite result on a
zero impedance. -/
theorem division_guard_amended (r x : ℝ) :
    (r = 0 → theveninXRRatio r x = x / 0.001) ∧
    (r ≠ 0 → theveninXRRatio r x = x / r) ∧
    busCalculateFaultCurrent 480 ⟨0, 0⟩ = none := by
  refine ⟨?_, ?_, ?_⟩
  · intro h
    simp [theveninXRRatio, h]
  · intro h
    simp [theveninXRRatio, h]
  · rw [busCalculateFaultCurrent, impedanceMagnitude_zero]
    simp

/-- Witness for the amended C8 at R = 0, X = 5. -/
theorem division_guard_amended_witness :
    theveninXRRatio 0 5 = 5 / 0.001 ∧
    busCalculateFaultCurrent 480 ⟨0, 0⟩ = none :=
  ⟨(division_guard_amended 0 5).1 rfl, (division_guard_amended 0 5).2.2⟩

/-- C4: a bus whose voltage lies outside [208 V, 15000 V] always gets an
arc-flash record with `evaluated: false`, a non-empty `missingFields` list,
and no numeric incident energy. -/
theorem arcflash_out_of_range_not_evaluated (enc : EnclosureType)
    (voltage boltedKA workingDistance arcDuration : ℝ)
    (h : voltage < 208 ∨ 15000 < voltage) :
    (calculateArcFlashForBus enc voltage boltedKA workingDistance arcDuration).evaluated
        = false ∧
    (calculateArcFlashForBus enc voltage boltedKA workingDistance arcDuration).missingFields
        ≠ [] ∧
    (calculateArcFlashForBus enc voltage boltedKA workingDistance arcDuration).incidentEnergy
        = none := by
  have hrange : ¬(208 ≤ voltage ∧ voltage ≤ 15000) := by
    rcases h with h | h
    · rintro ⟨h1, _⟩; linarith
    · rintro ⟨_, h2⟩; linarith
  have hmiss : ∃ rest, arcFlashMissingFields voltage boltedKA workingDistance arcDuration
      = ArcFlashMissingField.voltageOutOfRange :: rest := by
    unfold arcFlashMissingFields
    rw [if_pos hrange]
    exact ⟨_, rfl⟩
  obtain ⟨rest, hrest⟩ := hmiss
  have hne : arcFlashMissingFields voltage boltedKA workingDistance arcDuration ≠ [] := by
    rw [hrest]
    exact List.cons_ne_nil _ _
  refine ⟨?_, ?_, ?_⟩
  · simp [calculateArcFlashForBus, if_neg hne]
  · simp only [calculateArcFlashForBus, if_neg hne]
    exact hne
  · simp [calculateArcFlashForBus, if_neg hne]

/-- Witness for C4 at a 20000 V bus with otherwise valid parameters. -/
theorem arcflash_out_of_range_not_evaluated_witness :
    (calculateArcFlashForBus EnclosureType.VCB 20000 10 450 0.1).evaluated = false ∧
    (calculateArcFlashForBus EnclosureType.VCB 20000 10 450 0.1).missingFields ≠ [] ∧
    (calculateArcFlashForBus EnclosureType.VCB 20000 10 450 0.1).incidentEnergy = none :=
  arcflash_out_of_range_not_evaluated EnclosureType.VCB 20000 10 450 0.1
    (Or.inr (by norm_num))

/-- C7 counterexample: for an untagged 500 kVA / 0.48 kV transformer the
unit is inferred (kVA), but nothing is appended to the run's assumption
ledger — the inference is only reported through a console warning. -/
theorem power_unit_ledger_claim_false :
    (getTransformerPowerMVA ⟨500, none, some 0.48⟩).inferredUnit = some PowerUnit.kVA ∧
    (getTransformerPowerMVA ⟨500, none, some 0.48⟩).consoleWarning = true ∧
    (getTransformerPowerMVA ⟨500, none, some 0.48⟩).ledgerAppends = [] := by
  refine ⟨?_, rfl, rfl⟩
  simp only [getTransformerPowerMVA]
  norm_num

/-- C7 amended: an explicit kVA tag divides the power by 1000 and an
explicit MVA tag keeps it; an untagged transformer infers kVA when the
secondary voltage is at most 1 kV and MVA above 1 kV, and the inference is
reported by a one-time console warning, not by an assumption-ledger entry. -/
theorem power_unit_resolution_amended (p sv : ℝ) :
    (getTransformerPowerMVA ⟨p, some PowerUnit.kVA, some sv⟩).powerMVA = p / 1000 ∧
    (getTransformerPowerMVA ⟨p, some PowerUnit.MVA, some sv⟩).powerMVA = p ∧
    (sv ≤ 1 →
      (getTransformerPowerMVA ⟨p, none, some sv⟩).inferredUnit = some PowerUnit.kVA ∧
      (getTransformerPowerMVA ⟨p, none, some sv⟩).consoleWarning = true ∧
      (getTransformerPowerMVA ⟨p, none, some sv⟩).ledgerAppends = []) ∧
    (1 < sv →
      (getTransformerPowerMVA ⟨p, none, some sv⟩).inferredUnit = some PowerUnit.MVA ∧
      (getTransformerPowerMVA ⟨p, none, some sv⟩).consoleWarning = true ∧
      (getTransformerPowerMVA ⟨p, none, some sv⟩).ledgerAppends = []) := by
  refine ⟨rfl, rfl, ?_, ?_⟩
  · intro h
    refine ⟨?_, rfl, rfl⟩
    simp only [getTransformerPowerMVA]
    by_cases hz : sv = 0
    · subst hz
      norm_num
    · have h1000 : sv * 1000 ≤ 1000 := by nlinarith
      simp [if_neg hz, if_pos h1000]
      linarith
  · intro h
    have hz : sv ≠ 0 := by intro h0; rw [h0] at h; linarith
    refine ⟨?_, rfl, rfl⟩
    have h1000 : ¬sv * 1000 ≤ 1000 := by
      intro hle
      nlinarith
    simp [getTransformerPowerMVA, if_neg hz, if_neg h1000]
    linarith

/-- Witness for the amended C7 at 500 kVA (untagged) with a 0.48 kV
secondary. -/
theorem power_unit_resolution_amended_witness :
    (getTransformerPowerMVA ⟨500, some PowerUnit.kVA, some 0.48⟩).powerMVA = 500 / 1000 ∧
    (getTransformerPowerMVA ⟨500, none, some 0.48⟩).inferredUnit = some PowerUnit.kVA :=
  ⟨(power_unit_resolution_amended 500 0.48).1,
   ((power_unit_resolution_amended 500 0.48).2.2.1 (by norm_num)).1⟩

/-- Evaluation of the IEEE 1584-2018 incident energy at a 480 V VCB bus with
1 kA bolted current and a 32 mm gap: `log10(1) = 0` collapses the arcing
regression to `logIarc = -0.0898`, so `K = -0.8538738` and the distance
exponent is `x = 3.9138`. -/
theorem incidentEnergy_VCB_480 (D t : ℝ) :
    calculateIncidentEnergy EnclosureType.VCB 480 1 D t 32
      = 4.184 * (10 : ℝ) ^ (-0.8538738 : ℝ) * (t / 0.2) * (610 : ℝ) ^ (3.9138 : ℝ)
        / D ^ (3.9138 : ℝ) := by
  unfold calculateIncidentEnergy calculateArcingCurrent arcFlashDistanceExponent
    electrodeConfigK1 log10
  rw [if_pos (show (480:ℝ) < 1000 by norm_num)]
  simp only [Real.logb_one]
  rw [Real.logb_rpow (show (0:ℝ) < 10 by norm_num) (show (10:ℝ) ≠ 1 by norm_num)]
  norm_num

/-- At the working distance 450 mm and a 20 s arc duration the incident
energy of the 480 V / 1 kA / 32 mm configuration exceeds the 5 J/cm²
threshold. -/
theorem incidentEnergy_VCB_480_gt5 :
    5 < calculateIncidentEnergy EnclosureType.VCB 480 1 450 20 32 := by
  rw [incidentEnergy_VCB_480]
  have hp : (1/10 : ℝ) ≤ (10:ℝ) ^ (-0.8538738 : ℝ) := by
    have h := (Real.rpow_le_rpow_left_iff (show (1:ℝ) < 10 by norm_num)).mpr
      (show (-1:ℝ) ≤ -0.8538738 by norm_num)
    rw [Real.rpow_neg_one] at h
    calc (1/10 : ℝ) = (10:ℝ)⁻¹ := by norm_num
    _ ≤ (10:ℝ) ^ (-0.8538738 : ℝ) := h
  have hq : (450:ℝ) ^ (3.9138:ℝ) ≤ (610:ℝ) ^ (3.9138:ℝ) :=
    Real.rpow_le_rpow (by norm_num) (by norm_num) (by norm_num)
  have hr : (0:ℝ) < (450:ℝ) ^ (3.9138:ℝ) := Real.rpow_pos_of_pos (by norm_num) _
  have hppos : (0:ℝ) < (10:ℝ) ^ (-0.8538738 : ℝ) := Real.rpow_pos_of_pos (by norm_num) _
  rw [lt_div_iff₀ hr]
  have hpq : (1/10:ℝ) * (450:ℝ) ^ (3.9138:ℝ)
      ≤ (10:ℝ) ^ (-0.8538738 : ℝ) * (610:ℝ) ^ (3.9138:ℝ) :=
    mul_le_mul hp hq hr.le hppos.le
  nlinarith [hr]

/-- C9 counterexample: evaluating the incident-energy formula at the
distance reported by `calculateArcFlashBoundary` does not give the 5 J/cm²
(1.2 cal/cm²) threshold, because the boundary inverts a hard-coded exponent
2 while the formula's own distance exponent is 0.973 + 0.0919*32 = 3.9138. -/
theorem arcflash_boundary_claim_false :
    calculateIncidentEnergy EnclosureType.VCB 480 1
        (calculateArcFlashBoundary
          (calculateIncidentEnergy EnclosureType.VCB 480 1 450 20 32) 450) 20 32 < 5 := by
  set E := calculateIncidentEnergy EnclosureType.VCB 480 1 450 20 32 with hEdef
  have hE5 : 5 < E := incidentEnergy_VCB_480_gt5
  have hEeq : E = 4.184 * (10:ℝ) ^ (-0.8538738:ℝ) * (20/0.2) * (610:ℝ) ^ (3.9138:ℝ)
      / (450:ℝ) ^ (3.9138:ℝ) := hEdef.trans (incidentEnergy_VCB_480 450 20)
  have hB : calculateArcFlashBoundary E 450 = 450 * (E/5) ^ ((1:ℝ)/2) := by
    unfold calculateArcFlashBoundary
    rw [if_neg (by linarith)]
  set s : ℝ := (E/5) ^ ((1:ℝ)/2) with hsdef
  have hE5pos : (0:ℝ) < E/5 := by linarith
  have hspos : 0 < s := Real.rpow_pos_of_pos hE5pos _
  have h450 : (0:ℝ) < (450:ℝ) ^ (3.9138:ℝ) := Real.rpow_pos_of_pos (by norm_num) _
  have hsxpos : (0:ℝ) < s ^ (3.9138:ℝ) := Real.rpow_pos_of_pos hspos _
  rw [hB, incidentEnergy_VCB_480]
  have hmul : ((450:ℝ) * s) ^ (3.9138:ℝ) = (450:ℝ) ^ (3.9138:ℝ) * s ^ (3.9138:ℝ) :=
    Real.mul_rpow (by norm_num) hspos.le
  have hA : E * (450:ℝ) ^ (3.9138:ℝ)
      = 4.184 * (10:ℝ) ^ (-0.8538738:ℝ) * (20/0.2) * (610:ℝ) ^ (3.9138:ℝ) := by
    rw [hEeq]
    exact div_mul_cancel₀ _ (ne_of_gt h450)
  rw [hmul, ← hA]
  have hred : E * (450:ℝ) ^ (3.9138:ℝ) / ((450:ℝ) ^ (3.9138:ℝ) * s ^ (3.9138:ℝ))
      = E / s ^ (3.9138:ℝ) := by
    field_simp
    ring
  rw [hred, div_lt_iff₀ hsxpos]
  have hsx : s ^ (3.9138:ℝ) = (E/5) ^ ((1:ℝ)/2 * 3.9138) := by
    rw [hsdef, ← Real.rpow_mul hE5pos.le]
  have hbase : 1 < E/5 := (one_lt_div (by norm_num)).mpr hE5
  have hlt : (E/5) ^ (1:ℝ) < (E/5) ^ ((1:ℝ)/2 * 3.9138) :=
    (Real.rpow_lt_rpow_left_iff hbase).mpr (by norm_num)
  rw [Real.rpow_one] at hlt
  rw [hsx]
  linarith

/-- C9 amended: for incident energy above the 5 J/cm² threshold the
reported boundary is `D * (E/5)^(1/2)` — the distance at which the energy
reaches the threshold under the hard-coded inverse-square distance law, not
under the incident-energy formula's own exponent — and at or below the
threshold the working distance itself is returned. -/
theorem arcflash_boundary_amended (E D : ℝ) :
    (5 < E → 0 < D →
      E * (D / calculateArcFlashBoundary E D) ^ (2:ℕ) = 5 ∧
      calculateArcFlashBoundary E D = D * (E/5) ^ ((1:ℝ)/2)) ∧
    (E ≤ 5 → calculateArcFlashBoundary E D = D) := by
  constructor
  · intro hE hD
    have hB : calculateArcFlashBoundary E D = D * (E/5) ^ ((1:ℝ)/2) := by
      unfold calculateArcFlashBoundary
      rw [if_neg (by linarith)]
    refine ⟨?_, hB⟩
    rw [hB]
    have hE5pos : (0:ℝ) < E/5 := by linarith
    have hspos : 0 < (E/5) ^ ((1:ℝ)/2) := Real.rpow_pos_of_pos hE5pos _
    have hcancel : D / (D * (E/5) ^ ((1:ℝ)/2)) = ((E/5) ^ ((1:ℝ)/2))⁻¹ := by
      rw [div_mul_eq_div_div, div_self (ne_of_gt hD), one_div]
    rw [hcancel, inv_pow]
    have hs2 : ((E/5) ^ ((1:ℝ)/2)) ^ (2:ℕ) = E/5 := by
      rw [← Real.rpow_natCast ((E/5) ^ ((1:ℝ)/2)) 2, ← Real.rpow_mul hE5pos.le]
      norm_num
    rw [hs2]
    field_simp
  · intro hE
    unfold calculateArcFlashBoundary
    rw [if_pos hE]

/-- Witness for the amended C9: at E = 20 J/cm² and D = 450 mm the boundary
is 900 mm and the inverse-square energy there is exactly 5 J/cm²; at
E = 3 J/cm² the working distance is returned. -/
theorem arcflash_boundary_amended_witness :
    20 * (450 / calculateArcFlashBoundary 20 450) ^ (2:ℕ) = (5:ℝ) ∧
    calculateArcFlashBoundary 3 450 = 450 :=
  ⟨((arcflash_boundary_amended 20 450).1 (by norm_num) (by norm_num)).1,
   (arcflash_boundary_amended 3 450).2 (by norm_num)⟩

end PwrSysPro
